import Mathlib

/-!
Shallow embedding of the coralcam capture / enhancement core.

Sources embedded here:
- src/coralcam/hardware/camera.py      (class CoralCameras)
- src/coralcam/hardware/motor_TMC2209.py (class Motor)
- src/coralcam/gui/main_window.py      (CameraWidget.apply_image_enhancement,
                                        CameraWidget.on_auto_levels,
                                        CaptureThread.run)
- src/coralcam/coralscan.py            (CoralScanner)

Modelling conventions:
- uint8 pixel channels are Nat values; the numpy float32 working buffer is
  modelled with exact rationals.  numpy astype(uint8) truncates toward zero,
  which on the clipped non-negative values here is the floor.
- External library calls (np.power, cv2.bilateralFilter, cv2.GaussianBlur,
  cv2.addWeighted, cv2.cvtColor RGB2GRAY) are abstracted as function
  parameters bundled in CVOps, since their numerics live outside this
  repository.
- Hardware interaction (picamera2 capture calls, the TMC2209 stepper, sleeps,
  Qt signals) is modelled as a trace of events; calls that can raise are
  modelled with Except, mirroring the try/except blocks of the source.
- Python round(x, 2) rounds half to even; roundHalfToEven mirrors that.
- Python int() on a positive float truncates toward zero, modelled by Nat
  division on exact rationals.
-/

/-- A uint8 RGB pixel: three 8-bit channels. -/
abbrev Pixel : Type := Nat × Nat × Nat

/-- An image buffer: the list of its pixels. -/
abbrev Image : Type := List Pixel

/-- A pixel of the float32 working buffer, modelled with exact rationals. -/
abbrev FPixel : Type := ℚ × ℚ × ℚ

/-- The float working buffer of the enhancement pipeline. -/
abbrev FImage : Type := List FPixel

/-- np.clip for a single scalar value. -/
def clipQ (v lo hi : ℚ) : ℚ := max lo (min v hi)

/-- Apply the same scalar function to every channel of every pixel, as the
numpy elementwise operations of the pipeline do. -/
def mapChannels (f : ℚ → ℚ) (img : FImage) : FImage :=
  img.map (fun p => (f p.1, f p.2.1, f p.2.2))

/-- image.copy().astype(np.float32): the uint8 buffer read into the float
working buffer. -/
def toFloatImage (img : Image) : FImage :=
  img.map (fun p => ((p.1 : ℚ), (p.2.1 : ℚ), (p.2.2 : ℚ)))

/-- astype(np.uint8) on a value already clipped to the range 0..255:
truncation toward zero, i.e. the floor. -/
def toUint8 (v : ℚ) : Nat := (Int.floor (clipQ v 0 255)).toNat

/-- The enhancement settings dict kept per camera
(camera.py, CoralCameras.__init__, lines 72-83). -/
structure EnhancementSettings where
  enabled : Bool
  remove_black_background : Bool
  black_threshold : ℚ
  lower_limit : ℚ
  upper_limit : ℚ
  gamma : ℚ
  contrast : ℚ
  brightness : ℚ
  denoise : Bool
  sharpen : Bool
deriving DecidableEq, Repr

/-- The default enhancement settings installed for every camera at
construction (camera.py lines 72-83). -/
def defaultEnhancementSettings : EnhancementSettings where
  enabled := false
  remove_black_background := true
  black_threshold := 15
  lower_limit := 0
  upper_limit := 255
  gamma := 1
  contrast := 1
  brightness := 0
  denoise := false
  sharpen := false

/-- External cv2 / numpy numeric routines used by the pipeline, abstracted as
opaque-to-us functions since their code lives outside this repository.
power a b models np.power(a, b); bilateralFilter models
cv2.bilateralFilter(img, 9, 75, 75); gaussianBlur models
cv2.GaussianBlur(img, (0, 0), 2.0); addWeighted a b models
cv2.addWeighted(a, 1.5, b, -0.5, 0). -/
structure CVOps where
  power : ℚ → ℚ → ℚ
  bilateralFilter : Image → Image
  gaussianBlur : Image → Image
  addWeighted : Image → Image → Image

/-- Stage 1 of apply_image_enhancement (camera.py lines 112-115): for every
pixel with all channels at or below the threshold, force the pixel to
(0, 0, 0). -/
def removeBlackBackgroundStage (threshold : ℚ) (img : FImage) : FImage :=
  img.map (fun p =>
    if p.1 ≤ threshold ∧ p.2.1 ≤ threshold ∧ p.2.2 ≤ threshold then ((0 : ℚ), (0 : ℚ), (0 : ℚ))
    else p)

/-- Stage 2 of apply_image_enhancement (camera.py lines 117-121):
if upper > lower, enhanced = np.clip((enhanced - lower) * (255.0 / (upper - lower)), 0, 255). -/
def levelsAdjustStage (lower upper : ℚ) (img : FImage) : FImage :=
  if upper > lower then
    mapChannels (fun v => clipQ ((v - lower) * (255 / (upper - lower))) 0 255) img
  else img

/-- Stage 3 of apply_image_enhancement (camera.py lines 124-126):
if gamma is not 1.0, enhanced = np.power(enhanced / 255.0, 1.0 / gamma) * 255.0. -/
def gammaStage (power : ℚ → ℚ → ℚ) (gamma : ℚ) (img : FImage) : FImage :=
  if gamma ≠ 1 then mapChannels (fun v => power (v / 255) (1 / gamma) * 255) img else img

/-- Stage 4 of apply_image_enhancement (camera.py lines 129-131):
if contrast is not 1.0, enhanced = (enhanced - 127.5) * contrast + 127.5. -/
def contrastStage (contrast : ℚ) (img : FImage) : FImage :=
  if contrast ≠ 1 then mapChannels (fun v => (v - 255 / 2) * contrast + 255 / 2) img else img

/-- Stage 5 of apply_image_enhancement (camera.py lines 134-136):
if brightness is not 0, enhanced = enhanced + brightness. -/
def brightnessStage (brightness : ℚ) (img : FImage) : FImage :=
  if brightness ≠ 0 then mapChannels (fun v => v + brightness) img else img

/-- Final clip and conversion (camera.py line 139):
enhanced = np.clip(enhanced, 0, 255).astype(np.uint8). -/
def finalClipStage (img : FImage) : Image :=
  img.map (fun p => (toUint8 p.1, toUint8 p.2.1, toUint8 p.2.2))

/-- The enabled path of CoralCameras.apply_image_enhancement
(camera.py lines 109-149): the fixed-order stage pipeline applied to the
float copy of the input, followed by the optional cv2 denoise and sharpen
steps on the uint8 result. -/
def enhancePipeline (cv : CVOps) (s : EnhancementSettings) (image : Image) : Image :=
  let enhanced := toFloatImage image
  let enhanced :=
    if s.remove_black_background then removeBlackBackgroundStage s.black_threshold enhanced
    else enhanced
  let enhanced := levelsAdjustStage s.lower_limit s.upper_limit enhanced
  let enhanced := gammaStage cv.power s.gamma enhanced
  let enhanced := contrastStage s.contrast enhanced
  let enhanced := brightnessStage s.brightness enhanced
  let result := finalClipStage enhanced
  let result := if s.denoise then cv.bilateralFilter result else result
  let result := if s.sharpen then cv.addWeighted result (cv.gaussianBlur result) else result
  result

/-- CoralCameras.apply_image_enhancement (camera.py lines 100-149).
opencvAvailable models the module-level OPENCV_AVAILABLE flag; settings is
self.enhancement_settings.get(camera_id, {}), where none models a camera id
absent from the dict (whose empty dict makes settings.get('enabled', False)
false). -/
def apply_image_enhancement (opencvAvailable : Bool) (cv : CVOps)
    (settings : Option EnhancementSettings) (image : Image) : Image :=
  if !opencvAvailable then image
  else
    match settings with
    | none => image
    | some s => if !s.enabled then image else enhancePipeline cv s image

/-- The levels stage of CameraWidget.apply_image_enhancement
(main_window.py lines 394-397): clip to the lower..upper range first, then
rescale that range to 0..255. -/
def guiLevelsStage (lower upper : ℚ) (img : FImage) : FImage :=
  if upper > lower then
    mapChannels (fun v => (clipQ v lower upper - lower) / (upper - lower) * 255) img
  else img

/-- CameraWidget.apply_image_enhancement (main_window.py lines 383-417): the
GUI-side preview pipeline.  It reads the spin-box values (passed here as
arguments), has no black-background, denoise or sharpen steps, and returns
the input itself when the enhancement checkbox is off. -/
def gui_apply_image_enhancement (enabled : Bool) (power : ℚ → ℚ → ℚ)
    (lower upper gamma contrast brightness : ℚ) (image : Image) : Image :=
  if !enabled then image
  else
    let enhanced := toFloatImage image
    let enhanced := guiLevelsStage lower upper enhanced
    let enhanced := gammaStage power gamma enhanced
    let enhanced := contrastStage contrast enhanced
    let enhanced := brightnessStage brightness enhanced
    finalClipStage enhanced

/-- A tiny heap of image buffers, used to track which numpy array object each
operation writes to.  Pointers are allocation indices; next is the next free
index. -/
structure Heap where
  bufs : Nat → Image
  next : Nat

/-- Read the buffer a pointer refers to. -/
def readBuf (h : Heap) (p : Nat) : Image := h.bufs p

/-- Allocate a fresh buffer holding img; returns the new heap and the new
pointer. -/
def allocBuf (h : Heap) (img : Image) : Heap × Nat :=
  (⟨Function.update h.bufs h.next img, h.next + 1⟩, h.next)

/-- Overwrite the buffer a pointer refers to. -/
def writeBuf (h : Heap) (p : Nat) (img : Image) : Heap :=
  ⟨Function.update h.bufs p img, h.next⟩

/-- CoralCameras.apply_image_enhancement at buffer granularity.  On the
disabled paths the function returns the input array object itself
(camera.py lines 103, 107).  On the enabled path the first statement is
enhanced = image.copy().astype(np.float32) (line 109): a fresh allocation;
every later stage reassigns or writes only that working buffer, and the
returned object is the working buffer, never the input. -/
def apply_image_enhancement_heap (opencvAvailable : Bool) (cv : CVOps)
    (settings : Option EnhancementSettings) (h : Heap) (imagePtr : Nat) : Heap × Nat :=
  if !opencvAvailable then (h, imagePtr)
  else
    match settings with
    | none => (h, imagePtr)
    | some s =>
      if !s.enabled then (h, imagePtr)
      else
        let copied := allocBuf h (readBuf h imagePtr)
        let h1 := copied.1
        let enhPtr := copied.2
        (writeBuf h1 enhPtr (enhancePipeline cv s (readBuf h1 enhPtr)), enhPtr)

/-- CameraWidget.apply_image_enhancement at buffer granularity
(main_window.py lines 385-388, 417): same discipline, the enabled path
copies the input into a fresh working buffer and only ever writes that. -/
def gui_apply_image_enhancement_heap (enabled : Bool) (power : ℚ → ℚ → ℚ)
    (lower upper gamma contrast brightness : ℚ) (h : Heap) (imagePtr : Nat) : Heap × Nat :=
  if !enabled then (h, imagePtr)
  else
    let copied := allocBuf h (readBuf h imagePtr)
    let h1 := copied.1
    let enhPtr := copied.2
    (writeBuf h1 enhPtr
      (gui_apply_image_enhancement enabled power lower upper gamma contrast brightness
        (readBuf h1 enhPtr)), enhPtr)

/-- Python round(x, 2) rounds half to even; this is round-to-nearest with
ties to the even integer, on the value scaled by 100. -/
def roundHalfToEven (q : ℚ) : ℤ :=
  let f := Int.floor q
  if q - f < 1 / 2 then f
  else if q - f > 1 / 2 then f + 1
  else if Even f then f else f + 1

/-- round(x, 2): round to two decimal places as Python round does. -/
def round2 (q : ℚ) : ℚ := (roundHalfToEven (q * 100) : ℚ) / 100

/-- cv2.cvtColor(img, cv2.COLOR_RGB2BGR): swap the first and third channel
before cv2.imwrite (camera.py line 239). -/
def cvtRGB2BGR (img : Image) : Image := img.map (fun p => (p.2.2, p.2.1, p.1))

/-- The single trace-event type for every modelled hardware / signal action. -/
inductive Event where
  /-- time.sleep for the given number of seconds. -/
  | sleep (seconds : ℚ)
  /-- picamera2 capture_array on a camera (still or preview stream). -/
  | captureArray (cam : Nat)
  /-- picamera2 capture_file on a camera (the non-enhanced path). -/
  | captureFile (cam : Nat)
  /-- cv2.imwrite of an image captured on a camera. -/
  | writeFile (cam : Nat) (img : Image)
  /-- set_controls ExposureTime on a camera. -/
  | setExposureCtrl (cam : Nat) (us : Nat)
  /-- set_controls AnalogueGain on a camera. -/
  | setGainCtrl (cam : Nat) (g : ℚ)
  /-- set_controls AfMode Auto on a camera. -/
  | afAuto (cam : Nat)
  /-- autofocus_cycle on a camera. -/
  | afCycle (cam : Nat)
  /-- set_controls AfMode Manual with a lens position on a camera. -/
  | afManual (cam : Nat) (pos : ℚ)
  /-- the Motor.rotation call with its degrees argument. -/
  | rotateDegrees (degrees : ℚ)
  /-- the stepper run_to_position_revolutions relative move. -/
  | moveRevolutions (revs : ℚ)
  /-- the CaptureThread progress signal emission. -/
  | progressEmit (percent : Nat)
  /-- the CaptureThread finished_capture signal emission. -/
  | finishedCapture
  /-- the output-directory existence check / creation step. -/
  | ensureOutputDir
deriving DecidableEq, Repr

/-- The Motor wrapper state (motor_TMC2209.py): the configured gear ratio,
source field gear underscore ratio, default 5. -/
structure MotorState where
  gearRatio : ℚ
deriving DecidableEq, Repr

/-- Motor.rotation (motor_TMC2209.py lines 34-36):
revs = round(gear ratio * degrees / 360.0, 2);
self.motor.run_to_position_revolutions(revs).  The first event records the
rotation command itself, the second the motor-level relative move. -/
def Motor.rotation (m : MotorState) (degrees : ℚ) : List Event :=
  [Event.rotateDegrees degrees,
   Event.moveRevolutions (round2 (m.gearRatio * degrees / 360))]

/-- The CoralCameras state (camera.py, CoralCameras.__init__): the configured
camera ids (the keys of self.cameras, one or two of them), the per-camera
stored ExposureTime and AnalogueGain dicts, and the per-camera enhancement
settings dict.  Dicts keyed by camera id are modelled as functions; an
enhancement entry of none models an id absent from that dict. -/
structure CamerasState where
  cameras : List Nat
  exposureTime : Nat → Nat
  analogueGain : Nat → ℚ
  enhancement : Nat → Option EnhancementSettings

/-- CoralCameras._get_cameras (camera.py lines 299-305): none means all
configured cameras; an explicit list (a single int argument becomes the
one-element list) is filtered down to the ids actually configured. -/
def getCamerasArg (st : CamerasState) (cameras : Option (List Nat)) : List Nat :=
  match cameras with
  | none => st.cameras
  | some cs => cs.filter (fun c => c ∈ st.cameras)

/-- List concatenation of the per-element traces of a loop body, in loop
order. -/
def concatMap (f : α → List β) : List α → List β
  | [] => []
  | a :: as => f a ++ concatMap f as

/-- CoralCameras.set_exposure (camera.py lines 285-288): for each selected
configured camera, set_controls ExposureTime then record it in the
ExposureTime dict.  Returns the new state and the control-call trace. -/
def set_exposure (st : CamerasState) (exposure_us : Nat) (cameras : Option (List Nat)) :
    CamerasState × List Event :=
  (getCamerasArg st cameras).foldl
    (fun acc cam =>
      ({ acc.1 with exposureTime := Function.update acc.1.exposureTime cam exposure_us },
       acc.2 ++ [Event.setExposureCtrl cam exposure_us]))
    (st, [])

/-- CoralCameras.set_gain (camera.py lines 290-293): for each selected
configured camera, set_controls AnalogueGain then record it in the
AnalogueGain dict. -/
def set_gain (st : CamerasState) (analogue_gain : ℚ) (cameras : Option (List Nat)) :
    CamerasState × List Event :=
  (getCamerasArg st cameras).foldl
    (fun acc cam =>
      ({ acc.1 with analogueGain := Function.update acc.1.analogueGain cam analogue_gain },
       acc.2 ++ [Event.setGainCtrl cam analogue_gain]))
    (st, [])

/-- CoralCameras.focus_auto (camera.py lines 271-276): per selected camera,
set AfMode Auto then run an autofocus cycle.  No Python-side state is kept. -/
def focus_auto (st : CamerasState) (cameras : Option (List Nat)) : List Event :=
  concatMap (fun cam => [Event.afAuto cam, Event.afCycle cam]) (getCamerasArg st cameras)

/-- CoralCameras.focus_manual (camera.py lines 278-283): per selected camera,
set AfMode Manual with the lens position.  No Python-side state is kept. -/
def focus_manual (st : CamerasState) (lens_position : ℚ) (cameras : Option (List Nat)) :
    List Event :=
  (getCamerasArg st cameras).map (fun cam => Event.afManual cam lens_position)

/-- CoralCameras.set_enhancement_settings (camera.py lines 91-94): update the
enhancement entry of a camera id, but only if that id already has an entry.
The callers modelled here always pass every field, so the dict merge is a
full replacement. -/
def set_enhancement_settings (st : CamerasState) (camera_id : Nat)
    (settings : EnhancementSettings) : CamerasState :=
  if (st.enhancement camera_id).isSome then
    { st with enhancement := Function.update st.enhancement camera_id (some settings) }
  else st

/-- One iteration of the per-camera loop of CoralCameras.capture_enhanced
(camera.py lines 224-250), as its event trace.  hw cam is the
picamera2 capture_array('main') call: Except.error models a raised
exception, Except.ok none a None frame.  enh cam img is the
apply_image_enhancement call, Except.error modelling an exception raised
inside an enhancement stage.  The whole body is wrapped in
try/except-print-continue, so a raise ends the iteration with no file
written and the loop moves on. -/
def captureOneCamera (st : CamerasState) (hw : Nat → Except Unit (Option Image))
    (enh : Nat → Image → Except Unit Image) (delay : ℚ)
    (apply_enhancement opencvAvailable : Bool) (cam : Nat) : List Event :=
  let sleepEv := Event.sleep ((st.exposureTime cam : ℚ) * (1 / 1000000) * (delay + 1))
  if apply_enhancement && opencvAvailable then
    match hw cam with
    | Except.error _ => [sleepEv, Event.captureArray cam]
    | Except.ok none => [sleepEv, Event.captureArray cam]
    | Except.ok (some img) =>
      match enh cam img with
      | Except.error _ => [sleepEv, Event.captureArray cam]
      | Except.ok enhanced => [sleepEv, Event.captureArray cam,
                               Event.writeFile cam (cvtRGB2BGR enhanced)]
  else [sleepEv, Event.captureFile cam]

/-- CoralCameras.capture_enhanced (camera.py lines 219-250): loop the
per-camera body over the selected configured cameras.  In the source delay
defaults to 5 and cameras to None. -/
def capture_enhanced (st : CamerasState) (hw : Nat → Except Unit (Option Image))
    (enh : Nat → Image → Except Unit Image) (cameras : Option (List Nat)) (delay : ℚ)
    (apply_enhancement opencvAvailable : Bool) : List Event :=
  concatMap (captureOneCamera st hw enh delay apply_enhancement opencvAvailable)
    (getCamerasArg st cameras)

/-- CoralCameras.capture_array_rgb (camera.py lines 151-167): preview
capture with optional enhancement.  Returns None for an unconfigured id;
the try/except turns any raised exception (from the capture or from the
enhancement call) into a None return. -/
def capture_array_rgb (st : CamerasState) (hw : Nat → Except Unit (Option Image))
    (enh : Nat → Image → Except Unit Image) (camera_id : Nat)
    (apply_enhancement : Bool) : Option Image :=
  if camera_id ∉ st.cameras then none
  else
    match hw camera_id with
    | Except.error _ => none
    | Except.ok none => none
    | Except.ok (some frame) =>
      if apply_enhancement then
        match enh camera_id frame with
        | Except.error _ => none
        | Except.ok enhanced => some enhanced
      else some frame

/-- cv2.calcHist([gray], [0], None, [256], [0, 256]): the 256-bin histogram
of a grayscale buffer, bin i counting the pixels of value i. -/
def grayHist (g : List Nat) : List Nat :=
  (List.range 256).map (fun i => (g.filter (fun v => v = i)).length)

/-- np.cumsum: the list of running sums. -/
def cumsumList (l : List Nat) : List Nat :=
  (List.range l.length).map (fun i => ((l.take (i + 1)).sum))

/-- np.searchsorted(a, v) with the default left side: the first index i with
v ≤ a i, or the length when none exists. -/
def searchsortedLeft (a : List Nat) (v : ℚ) : Nat :=
  (((List.range a.length).filter (fun i => v ≤ ((a.getD i 0 : Nat) : ℚ))).head?).getD a.length

/-- The 1st percentile intensity bin of a grayscale buffer: searchsorted of
1 percent of the pixel total into the cumulative histogram (camera.py
lines 185-189). -/
def percentile1Bin (g : List Nat) : Nat :=
  searchsortedLeft (cumsumList (grayHist g))
    (((((cumsumList (grayHist g)).getLast?).getD 0 : Nat) : ℚ) * (1 / 100))

/-- The 99th percentile intensity bin of a grayscale buffer as camera.py
line 190 computes it. -/
def percentile99Bin (g : List Nat) : Nat :=
  searchsortedLeft (cumsumList (grayHist g))
    (((((cumsumList (grayHist g)).getLast?).getD 0 : Nat) : ℚ) * (99 / 100))

/-- The optimal_settings dict built by
CoralCameras.auto_enhance_for_dark_background (camera.py lines 184-204)
from the grayscale sample: cumulative histogram, 1st and 99th percentile
bins by searchsorted, then the dark-background preset with offset and
clamped limits, gamma 0.7, contrast 1.2, brightness 5, denoise on, and
enabled set to True. -/
def optimalSettingsFor (g : List Nat) : EnhancementSettings :=
  { enabled := true
    remove_black_background := true
    black_threshold := ((max 10 (percentile1Bin g) : Nat) : ℚ)
    lower_limit := ((max 5 ((percentile1Bin g : ℤ) - 5) : ℤ) : ℚ)
    upper_limit := ((min 250 (percentile99Bin g + 10) : Nat) : ℚ)
    gamma := 7 / 10
    contrast := 6 / 5
    brightness := 5
    denoise := true
    sharpen := false }

/-- CoralCameras.auto_enhance_for_dark_background (camera.py lines 169-208).
gray models the external cv2.cvtColor RGB2GRAY luminance conversion;
sample is the capture_array_rgb(camera_id, apply_enhancement=False) result
(none when the sample capture failed).  On success the computed
optimal_settings are installed through set_enhancement_settings. -/
def auto_enhance_for_dark_background (st : CamerasState) (opencvAvailable : Bool)
    (gray : Image → List Nat) (camera_id : Nat) (sample : Option Image) : CamerasState :=
  if !opencvAvailable then st
  else
    match sample with
    | none => st
    | some img => set_enhancement_settings st camera_id (optimalSettingsFor (gray img))

/-- The frame loop of CaptureThread.run: the concatenated event traces of
iterations 0 to k-1, in order. -/
def runFrames (block : Nat → List Event) : Nat → List Event
  | 0 => []
  | k + 1 => runFrames block k ++ block k

/-- CaptureThread.run (main_window.py lines 487-509).  num_images is the
requested image count (an int, so modelled as ℤ); delay is self.delay (the
constructor default is 0.5).  Per frame: time.sleep(self.delay), then
capture_enhanced(filename, apply_enhancement=True) with its source defaults
cameras=None and delay=5, then
progress.emit(int(current_capture / total_captures * 100)) with
current_capture = frame index + 1 (int() truncation of a non-negative value
is Nat division here), then self.motor.rotation(rotation_step).  After the
loop the finished_capture signal is emitted.  There is no validation branch:
rotation_step falls back to 0 when num_images ≤ 0 and the loop body simply
never runs. -/
def captureThreadRun (st : CamerasState) (hw : Nat → Except Unit (Option Image))
    (enh : Nat → Image → Except Unit Image) (motor : MotorState)
    (opencvAvailable : Bool) (num_images : ℤ) (delay : ℚ) : List Event :=
  let rotation_step : ℚ := if num_images > 0 then 360 / (num_images : ℚ) else 0
  let n := num_images.toNat
  Event.ensureOutputDir ::
    (runFrames
      (fun i =>
        [Event.sleep delay]
          ++ capture_enhanced st hw enh none 5 true opencvAvailable
          ++ [Event.progressEmit ((100 * (i + 1)) / n)]
          ++ Motor.rotation motor rotation_step)
      n
    ++ [Event.finishedCapture])

/-- The progress values emitted along a trace, in order. -/
def progressValues (t : List Event) : List Nat :=
  t.filterMap (fun e => match e with | Event.progressEmit p => some p | _ => none)

/-- The degrees arguments of the rotation commands along a trace, in order. -/
def rotationCommands (t : List Event) : List ℚ :=
  t.filterMap (fun e => match e with | Event.rotateDegrees d => some d | _ => none)

/-- The relative moves issued to the stepper along a trace, in order. -/
def moveCommands (t : List Event) : List ℚ :=
  t.filterMap (fun e => match e with | Event.moveRevolutions r => some r | _ => none)

/-- Is the event a time.sleep? -/
def isSleepEv : Event → Bool
  | Event.sleep _ => true
  | _ => false

/-- Is the event a still/preview capture call on a camera? -/
def isCaptureCall : Event → Bool
  | Event.captureArray _ => true
  | Event.captureFile _ => true
  | _ => false

/-- Is the event an image file write? -/
def isWriteEv : Event → Bool
  | Event.writeFile _ _ => true
  | _ => false

/-- Is the event a hardware call (camera capture, camera control, autofocus,
or stepper move)?  Sleeps, signals and directory bookkeeping are not
hardware calls. -/
def isHardwareCall : Event → Bool
  | Event.captureArray _ => true
  | Event.captureFile _ => true
  | Event.writeFile _ _ => true
  | Event.setExposureCtrl _ _ => true
  | Event.setGainCtrl _ _ => true
  | Event.afAuto _ => true
  | Event.afCycle _ => true
  | Event.afManual _ _ => true
  | Event.rotateDegrees _ => true
  | Event.moveRevolutions _ => true
  | _ => false

/-- A rig with one configured camera, id 0, at the constructor defaults:
exposure 20000 us, gain 1.0, default enhancement settings. -/
def stOneCam : CamerasState where
  cameras := [0]
  exposureTime := fun _ => 20000
  analogueGain := fun _ => 1
  enhancement := fun c => if c = 0 then some defaultEnhancementSettings else none

/-- A rig with two configured cameras, ids 0 and 1, at the constructor
defaults. -/
def stTwoCam : CamerasState where
  cameras := [0, 1]
  exposureTime := fun _ => 20000
  analogueGain := fun _ => 1
  enhancement := fun c => if c ≤ 1 then some defaultEnhancementSettings else none

/-- A hardware stub whose capture calls always succeed with one fixed pixel. -/
def hwOk : Nat → Except Unit (Option Image) := fun _ => Except.ok (some [(1, 2, 3)])

/-- An enhancement stub that succeeds and returns its input. -/
def enhId : Nat → Image → Except Unit Image := fun _ img => Except.ok img

/-- An enhancement stub that always raises. -/
def enhRaise : Nat → Image → Except Unit Image := fun _ _ => Except.error ()

/-- A trivial instantiation of the external cv2 / numpy routines, for
witnesses whose claims never reach them. -/
def cvTrivial : CVOps where
  power := fun a _ => a
  bilateralFilter := fun img => img
  gaussianBlur := fun img => img
  addWeighted := fun a _ => a

/-- A grayscale conversion stub taking the first channel as luminance. -/
def grayFirstChannel : Image → List Nat := fun img => img.map (fun p => p.1)

/-- An empty buffer heap. -/
def heapEmpty : Heap where
  bufs := fun _ => []
  next := 0

/-- A one-buffer heap whose pointer 0 holds a single pixel. -/
def heapOneBuf : Heap where
  bufs := fun p => if p = 0 then [(9, 9, 9)] else []
  next := 1

/-- The motor at its constructor default gear ratio 5. -/
def motorDefault : MotorState := ⟨5⟩

/-- Enhancement settings with only the levels stage active:
lower 50, upper 200, every other stage disabled or at its identity value. -/
def settingsLevels50to200 : EnhancementSettings where
  enabled := true
  remove_black_background := false
  black_threshold := 15
  lower_limit := 50
  upper_limit := 200
  gamma := 1
  contrast := 1
  brightness := 0
  denoise := false
  sharpen := false

/-- C2, counterexample: with gear ratio 5 and a 36 degree step the issued
relative move is round(5 * 36 / 360, 2) = 0.5 revolutions, not the 1.8 the
claim states. -/
theorem rotation_5_36_is_half_not_1_8 :
    moveCommands (Motor.rotation ⟨5⟩ 36) = [1 / 2] ∧
    ((1 : ℚ) / 2) ≠ 18 / 10 ∧
    Motor.rotation ⟨5⟩ 36 ≠
      [Event.rotateDegrees 36, Event.moveRevolutions (18 / 10)] := by
  refine ⟨?_, by norm_num, ?_⟩
  · simp [moveCommands, Motor.rotation]
    norm_num [round2, roundHalfToEven]
  · intro h
    have h2 := congrArg moveCommands h
    simp [moveCommands, Motor.rotation] at h2
    norm_num [round2, roundHalfToEven] at h2

/-- C2, amended: the rotation operation issues exactly one relative move of
round(gearRatio * degrees / 360, 2 decimals) revolutions; with gearRatio 5
and degrees 36 that move is 0.5 revolutions. -/
theorem rotation_revolutions_formula :
    (∀ (g d : ℚ), Motor.rotation ⟨g⟩ d =
      [Event.rotateDegrees d, Event.moveRevolutions (round2 (g * d / 360))]) ∧
    Motor.rotation ⟨5⟩ 36 = [Event.rotateDegrees 36, Event.moveRevolutions (1 / 2)] := by
  refine ⟨fun _ _ => rfl, ?_⟩
  simp only [Motor.rotation, List.cons.injEq, and_true, Event.moveRevolutions.injEq,
    Event.rotateDegrees.injEq, true_and]
  norm_num [round2, roundHalfToEven]

/-- C3: with enabled false the enhancement operation returns the input
unchanged, so a repeated disabled application is idempotent byte-for-byte;
at buffer granularity the returned object is the caller's own input buffer
and the heap is untouched. -/
theorem enhancement_disabled_identity (oc : Bool) (cv : CVOps)
    (s : EnhancementSettings) (img : Image) (hp : Heap) (p : Nat)
    (h : s.enabled = false) :
    apply_image_enhancement oc cv (some s) img = img ∧
    apply_image_enhancement oc cv (some s)
      (apply_image_enhancement oc cv (some s) img) = img ∧
    apply_image_enhancement_heap oc cv (some s) hp p = (hp, p) := by
  cases oc <;> simp [apply_image_enhancement, apply_image_enhancement_heap, h]

/-- C3 witness at the constructor-default settings record. -/
theorem enhancement_disabled_identity_witness :
    defaultEnhancementSettings.enabled = false ∧
    apply_image_enhancement true cvTrivial (some defaultEnhancementSettings)
      [(5, 6, 7)] = [(5, 6, 7)] :=
  ⟨rfl,
   (enhancement_disabled_identity true cvTrivial defaultEnhancementSettings
      [(5, 6, 7)] heapEmpty 0 rfl).1⟩

/-- The levels stage worded as the specification describes it, for
comparison with the source formula: clip each value to the
lowerLimit..upperLimit range, then linearly rescale that range to 0..255. -/
def levelsSpecStage (lower upper : ℚ) (img : FImage) : FImage :=
  mapChannels (fun v => (clipQ v lower upper - lower) * (255 / (upper - lower))) img

/-- Scalar core of the levels equivalence: the source formula
clip((v - l) * (255 / (u - l)), 0, 255) equals clip-then-rescale when
l < u. -/
theorem levels_scalar_equiv (l u v : ℚ) (h : l < u) :
    clipQ ((v - l) * (255 / (u - l))) 0 255 = (clipQ v l u - l) * (255 / (u - l)) := by
  have hs : (0 : ℚ) < 255 / (u - l) := div_pos (by norm_num) (sub_pos.mpr h)
  have hne : u - l ≠ 0 := sub_ne_zero.mpr h.ne'
  have hcancel : (u - l) * (255 / (u - l)) = 255 := by
    field_simp
  unfold clipQ
  rcases le_total v l with hv | hv
  · have h1 : min v u = v := min_eq_left (hv.trans h.le)
    have h2 : (v - l) * (255 / (u - l)) ≤ 0 :=
      mul_nonpos_of_nonpos_of_nonneg (by linarith) hs.le
    rw [h1, max_eq_left hv, min_eq_left (h2.trans (by norm_num)), max_eq_left h2]
    ring
  · rcases le_total u v with hu | hu
    · have h1 : min v u = u := min_eq_right hu
      have h2 : (255 : ℚ) ≤ (v - l) * (255 / (u - l)) := by
        calc (255 : ℚ) = (u - l) * (255 / (u - l)) := hcancel.symm
        _ ≤ (v - l) * (255 / (u - l)) := mul_le_mul_of_nonneg_right (by linarith) hs.le
      rw [h1, max_eq_right h.le, min_eq_right h2,
        max_eq_right (by norm_num : (0 : ℚ) ≤ 255), hcancel]
    · have h1 : min v u = v := min_eq_left hu
      have h2 : (0 : ℚ) ≤ (v - l) * (255 / (u - l)) := mul_nonneg (by linarith) hs.le
      have h3 : (v - l) * (255 / (u - l)) ≤ 255 := by
        calc (v - l) * (255 / (u - l)) ≤ (u - l) * (255 / (u - l)) :=
          mul_le_mul_of_nonneg_right (by linarith) hs.le
        _ = 255 := hcancel
      rw [h1, max_eq_right hv, min_eq_left h3, max_eq_right h2]

/-- C5: with upperLimit > lowerLimit the levels stage equals clip to the
lowerLimit..upperLimit range followed by a linear rescale of that range to
0..255; and through the whole enabled pipeline with lower 50, upper 200 and
every other stage at identity, pixel value 50 maps to 0 and 200 maps to
255. -/
theorem levels_stage_clips_and_rescales (l u : ℚ) (img : FImage) (cv : CVOps)
    (h : l < u) :
    levelsAdjustStage l u img = levelsSpecStage l u img ∧
    apply_image_enhancement true cv (some settingsLevels50to200)
      [(50, 50, 50), (200, 200, 200)] = [(0, 0, 0), (255, 255, 255)] := by
  constructor
  · unfold levelsAdjustStage levelsSpecStage
    rw [if_pos h]
    unfold mapChannels
    apply List.map_congr_left
    intro p _
    dsimp only
    rw [levels_scalar_equiv l u p.1 h, levels_scalar_equiv l u p.2.1 h,
      levels_scalar_equiv l u p.2.2 h]
  · simp [apply_image_enhancement, enhancePipeline, settingsLevels50to200, toFloatImage,
      levelsAdjustStage, mapChannels, gammaStage, contrastStage, brightnessStage,
      finalClipStage, toUint8, clipQ, removeBlackBackgroundStage]
    norm_num
    decide

/-- C5 witness at lower 50, upper 200 on a one-pixel buffer. -/
theorem levels_stage_clips_and_rescales_witness :
    ((50 : ℚ) < 200) ∧
    levelsAdjustStage 50 200 [((60 : ℚ), 60, 60)] =
      levelsSpecStage 50 200 [((60 : ℚ), 60, 60)] ∧
    apply_image_enhancement true cvTrivial (some settingsLevels50to200)
      [(50, 50, 50), (200, 200, 200)] = [(0, 0, 0), (255, 255, 255)] :=
  ⟨by norm_num,
   (levels_stage_clips_and_rescales 50 200 [((60 : ℚ), 60, 60)] cvTrivial
      (by norm_num)).1,
   (levels_stage_clips_and_rescales 50 200 [((60 : ℚ), 60, 60)] cvTrivial
      (by norm_num)).2⟩

/-- Filtering distributes over the concatenated traces of a loop. -/
theorem filter_concatMap (p : β → Bool) (f : α → List β) (l : List α) :
    (concatMap f l).filter p = concatMap (fun a => (f a).filter p) l := by
  induction l with
  | nil => rfl
  | cons a as ih => simp [concatMap, List.filter_append, ih]

/-- A loop whose body contributes one element concatenates to a map. -/
theorem concatMap_singleton (f : α → β) (l : List α) :
    concatMap (fun a => [f a]) l = l.map f := by
  induction l with
  | nil => rfl
  | cons a as ih => simp [concatMap, ih]

/-- Every branch of the per-camera capture body sleeps exactly once, for that
camera's own stored exposure time. -/
theorem captureOneCamera_filter_sleep (st : CamerasState)
    (hw : Nat → Except Unit (Option Image)) (enh : Nat → Image → Except Unit Image)
    (d : ℚ) (ae oc : Bool) (cam : Nat) :
    (captureOneCamera st hw enh d ae oc cam).filter isSleepEv
      = [Event.sleep ((st.exposureTime cam : ℚ) * (1 / 1000000) * (d + 1))] := by
  unfold captureOneCamera
  by_cases hc : (ae && oc) = true
  · rw [if_pos hc]
    cases h1 : hw cam with
    | error e => simp [isSleepEv]
    | ok o =>
      cases o with
      | none => simp [isSleepEv]
      | some img => cases h2 : enh cam img <;> simp [h2, isSleepEv]
  · rw [if_neg hc]
    simp [isSleepEv]

/-- C8: in a still capture with the source default settle factor 5, each
selected camera's iteration begins with a wait of
exposure microseconds * 1e-6 * (5 + 1) seconds computed from that camera's
own stored exposure time, immediately followed by that camera's capture
call; and over a whole capture_enhanced invocation the sleeps are exactly
one per configured camera, each from its own exposure, not one global
wait. -/
theorem shutter_delay_per_camera (st : CamerasState)
    (hw : Nat → Except Unit (Option Image)) (enh : Nat → Image → Except Unit Image)
    (oc : Bool) (cam : Nat) :
    (captureOneCamera st hw enh 5 true oc cam).head? =
      some (Event.sleep ((st.exposureTime cam : ℚ) * (1 / 1000000) * (5 + 1))) ∧
    (captureOneCamera st hw enh 5 true oc cam)[1]? =
      some (if oc then Event.captureArray cam else Event.captureFile cam) ∧
    (capture_enhanced st hw enh none 5 true oc).filter isSleepEv =
      st.cameras.map
        (fun c => Event.sleep ((st.exposureTime c : ℚ) * (1 / 1000000) * (5 + 1))) := by
  refine ⟨?_, ?_, ?_⟩
  · unfold captureOneCamera
    cases oc with
    | false => simp
    | true =>
      cases h1 : hw cam with
      | error e => simp
      | ok o =>
        cases o with
        | none => simp
        | some img => cases h2 : enh cam img <;> simp [h2]
  · unfold captureOneCamera
    cases oc with
    | false => simp
    | true =>
      cases h1 : hw cam with
      | error e => simp
      | ok o =>
        cases o with
        | none => simp
        | some img => cases h2 : enh cam img <;> simp [h2]
  · unfold capture_enhanced
    rw [show getCamerasArg st none = st.cameras from rfl, filter_concatMap]
    rw [show (fun c => (captureOneCamera st hw enh 5 true oc c).filter isSleepEv)
        = fun c => [Event.sleep ((st.exposureTime c : ℚ) * (1 / 1000000) * (5 + 1))]
      from funext fun c => captureOneCamera_filter_sleep st hw enh 5 true oc c]
    exact concatMap_singleton _ _

/-- C9: a capability-set operation aimed at a camera id outside the
configured set is a silent no-op: the selected-camera list filters to
empty, so no control call, capture call or state change happens and no
exception path is reached. -/
theorem unconfigured_camera_ops_noop (st : CamerasState) (us : Nat) (g pos : ℚ)
    (hw : Nat → Except Unit (Option Image)) (enh : Nat → Image → Except Unit Image)
    (oc ae : Bool) (camId : Nat) (h : camId ∉ st.cameras) :
    set_exposure st us (some [camId]) = (st, []) ∧
    set_gain st g (some [camId]) = (st, []) ∧
    focus_auto st (some [camId]) = [] ∧
    focus_manual st pos (some [camId]) = [] ∧
    capture_enhanced st hw enh (some [camId]) 5 ae oc = [] := by
  have hg : getCamerasArg st (some [camId]) = [] := by
    simp [getCamerasArg, h]
  refine ⟨?_, ?_, ?_, ?_, ?_⟩ <;>
    simp [set_exposure, set_gain, focus_auto, focus_manual, capture_enhanced, hg, concatMap]

/-- C9 witness: camera id 1 on the one-camera rig. -/
theorem unconfigured_camera_ops_noop_witness :
    (1 ∉ stOneCam.cameras) ∧
    set_exposure stOneCam 15000 (some [1]) = (stOneCam, []) ∧
    set_gain stOneCam 2 (some [1]) = (stOneCam, []) ∧
    focus_auto stOneCam (some [1]) = [] ∧
    focus_manual stOneCam 3 (some [1]) = [] ∧
    capture_enhanced stOneCam hwOk enhId (some [1]) 5 true true = [] := by
  have h : (1 : Nat) ∉ stOneCam.cameras := by decide
  have hmain := unconfigured_camera_ops_noop stOneCam 15000 2 3 hwOk enhId true true 1 h
  exact ⟨h, hmain.1, hmain.2.1, hmain.2.2.1, hmain.2.2.2.1, hmain.2.2.2.2⟩

/-- A hardware stub capturing a fixed three-by-three-valued pixel. -/
def hwNine : Nat → Except Unit (Option Image) := fun _ => Except.ok (some [(9, 9, 9)])

/-- C6, counterexample: one invocation of the auto-levels helper on the
default rig flips the enabled setting from false to true, so it does not
leave the enabled setting unchanged. -/
theorem auto_levels_auto_enables_counterexample :
    ((auto_enhance_for_dark_background stOneCam true grayFirstChannel 0
        (some [(100, 100, 100)])).enhancement 0).map EnhancementSettings.enabled
      = some true ∧
    (stOneCam.enhancement 0).map EnhancementSettings.enabled = some false :=
  ⟨rfl, rfl⟩

/-- C6, amended: on every successful invocation the auto-levels helper
overwrites the camera's enhancement settings with the dark-background
preset: it proposes lowerLimit max(5, p1 - 5) and upperLimit
min(250, p99 + 10) derived from the 1st and 99th percentile bins of the
luminance histogram, and it sets enabled to true, auto-enabling
enhancement rather than leaving the flag unchanged. -/
theorem auto_levels_installs_enabled_settings (st : CamerasState)
    (gray : Image → List Nat) (cam : Nat) (img : Image)
    (h : (st.enhancement cam).isSome = true) :
    (auto_enhance_for_dark_background st true gray cam (some img)).enhancement cam
      = some (optimalSettingsFor (gray img)) ∧
    (optimalSettingsFor (gray img)).enabled = true ∧
    (optimalSettingsFor (gray img)).lower_limit
      = ((max 5 ((percentile1Bin (gray img) : ℤ) - 5) : ℤ) : ℚ) ∧
    (optimalSettingsFor (gray img)).upper_limit
      = ((min 250 (percentile99Bin (gray img) + 10) : Nat) : ℚ) := by
  refine ⟨?_, rfl, rfl, rfl⟩
  simp [auto_enhance_for_dark_background, set_enhancement_settings, h,
    Function.update_same]

/-- C6 witness for the amended statement on a concrete one-pixel sample. -/
theorem auto_levels_installs_enabled_settings_witness :
    (stOneCam.enhancement 0).isSome = true ∧
    (auto_enhance_for_dark_background stOneCam true grayFirstChannel 0
        (some [(100, 100, 100)])).enhancement 0
      = some (optimalSettingsFor (grayFirstChannel [(100, 100, 100)])) :=
  ⟨rfl,
   (auto_levels_installs_enabled_settings stOneCam grayFirstChannel 0
      [(100, 100, 100)] rfl).1⟩

/-- C7, counterexample: the capture stub succeeds with the raw frame
[(1, 2, 3)] but enhancement raises; the preview capture then returns None
rather than falling back to the raw frame, and the still-capture loop body
writes no file for that camera. -/
theorem enhancement_exception_drops_frame_counterexample :
    capture_array_rgb stOneCam hwOk enhRaise 0 true = none ∧
    (captureOneCamera stOneCam hwOk enhRaise 5 true true 0).filter isWriteEv = [] ∧
    capture_array_rgb stOneCam hwOk enhRaise 0 true ≠ some [(1, 2, 3)] := by
  refine ⟨rfl, rfl, ?_⟩
  intro hcontra
  simp [capture_array_rgb, hwOk, enhRaise] at hcontra

/-- C7, amended: when the enhancement call raises on a captured frame the
exception is caught and does not abort the sequence, but the frame is
dropped, not replaced by the raw frame: the preview path returns None and
the still-capture path ends its iteration after the capture call with no
file written. -/
theorem enhancement_exception_drops_frame (st : CamerasState)
    (hw : Nat → Except Unit (Option Image)) (enh : Nat → Image → Except Unit Image)
    (cam : Nat) (img : Image) (hmem : cam ∈ st.cameras)
    (hhw : hw cam = Except.ok (some img)) (henh : enh cam img = Except.error ()) :
    capture_array_rgb st hw enh cam true = none ∧
    captureOneCamera st hw enh 5 true true cam =
      [Event.sleep ((st.exposureTime cam : ℚ) * (1 / 1000000) * (5 + 1)),
       Event.captureArray cam] ∧
    (captureOneCamera st hw enh 5 true true cam).filter isWriteEv = [] := by
  refine ⟨?_, ?_, ?_⟩
  · simp [capture_array_rgb, hmem, hhw, henh]
  · simp [captureOneCamera, hhw, henh]
  · simp [captureOneCamera, hhw, henh, isWriteEv]

/-- C7 witness on the one-camera rig with a raising enhancement stub. -/
theorem enhancement_exception_drops_frame_witness :
    (0 ∈ stOneCam.cameras) ∧
    hwNine 0 = Except.ok (some [(9, 9, 9)]) ∧
    enhRaise 0 [(9, 9, 9)] = Except.error () ∧
    capture_array_rgb stOneCam hwNine enhRaise 0 true = none :=
  ⟨by decide, rfl, rfl,
   (enhancement_exception_drops_frame stOneCam hwNine enhRaise 0 [(9, 9, 9)]
      (by decide) rfl rfl).1⟩

/-- Progress extraction distributes over trace concatenation. -/
theorem progressValues_append (a b : List Event) :
    progressValues (a ++ b) = progressValues a ++ progressValues b := by
  simp [progressValues]

/-- The per-camera capture body emits no progress events. -/
theorem progressValues_captureOneCamera (st : CamerasState)
    (hw : Nat → Except Unit (Option Image)) (enh : Nat → Image → Except Unit Image)
    (d : ℚ) (ae oc : Bool) (cam : Nat) :
    progressValues (captureOneCamera st hw enh d ae oc cam) = [] := by
  unfold captureOneCamera
  by_cases hc : (ae && oc) = true
  · rw [if_pos hc]
    cases h1 : hw cam with
    | error e => simp [progressValues]
    | ok o =>
      cases o with
      | none => simp [progressValues]
      | some img => cases h2 : enh cam img <;> simp [h2, progressValues]
  · rw [if_neg hc]
    simp [progressValues]

/-- A whole capture_enhanced invocation emits no progress events. -/
theorem progressValues_capture_enhanced (st : CamerasState)
    (hw : Nat → Except Unit (Option Image)) (enh : Nat → Image → Except Unit Image)
    (cams : Option (List Nat)) (d : ℚ) (ae oc : Bool) :
    progressValues (capture_enhanced st hw enh cams d ae oc) = [] := by
  unfold capture_enhanced
  induction (getCamerasArg st cams) with
  | nil => rfl
  | cons c cs ih =>
    rw [concatMap, progressValues_append, ih, progressValues_captureOneCamera]
    rfl

/-- A frame loop whose body emits one progress value per iteration yields
those values in iteration order. -/
theorem progressValues_runFrames (block : Nat → List Event) (f : Nat → Nat)
    (hb : ∀ i, progressValues (block i) = [f i]) (k : Nat) :
    progressValues (runFrames block k) = (List.range k).map f := by
  induction k with
  | zero => rfl
  | succ k ih =>
    rw [runFrames, progressValues_append, ih, hb k, List.range_succ, List.map_append]
    rfl

/-- C1, counterexample: a request with imageCount 0 is not rejected: the
run performs the output-directory step and then emits the normal
finished_capture completion signal, exactly as a successful sequence would,
instead of aborting with a validation error.  (It does make zero hardware
calls, which is the part of the claim that holds.) -/
theorem zero_image_count_completes_normally :
    captureThreadRun stOneCam hwOk enhId motorDefault true 0 (1 / 2)
      = [Event.ensureOutputDir, Event.finishedCapture] ∧
    Event.finishedCapture ∈
      captureThreadRun stOneCam hwOk enhId motorDefault true 0 (1 / 2) ∧
    (captureThreadRun stOneCam hwOk enhId motorDefault true 0 (1 / 2)).filter
      isHardwareCall = [] := by
  refine ⟨by decide, by decide, by decide⟩

/-- C1, amended: for every request with imageCount at most 0 the sequencer
makes zero hardware calls (the frame loop never runs, so no capture call
and no motor command), but it does not reject the request: the whole trace
is the directory step followed by the normal completion signal. -/
theorem nonpositive_image_count_no_hardware (st : CamerasState)
    (hw : Nat → Except Unit (Option Image)) (enh : Nat → Image → Except Unit Image)
    (motor : MotorState) (oc : Bool) (n : ℤ) (d : ℚ) (h : n ≤ 0) :
    captureThreadRun st hw enh motor oc n d
      = [Event.ensureOutputDir, Event.finishedCapture] ∧
    (captureThreadRun st hw enh motor oc n d).filter isHardwareCall = [] ∧
    Event.finishedCapture ∈ captureThreadRun st hw enh motor oc n d := by
  have h0 : n.toNat = 0 := Int.toNat_of_nonpos h
  refine ⟨?_, ?_, ?_⟩ <;> simp [captureThreadRun, h0, runFrames, isHardwareCall]

/-- C1 witness at imageCount -1. -/
theorem nonpositive_image_count_no_hardware_witness :
    ((-1 : ℤ) ≤ 0) ∧
    captureThreadRun stOneCam hwOk enhId motorDefault true (-1) (1 / 2)
      = [Event.ensureOutputDir, Event.finishedCapture] :=
  ⟨by decide,
   (nonpositive_image_count_no_hardware stOneCam hwOk enhId motorDefault true (-1)
      (1 / 2) (by decide)).1⟩

/-- C4, counterexample: with imageCount 3 the code emits progress values
[33, 66, 100]: after the second frame it emits 66, where the claimed
round(100 * (i + 1) / imageCount) formula gives 67, so the emitted value
is the truncation, not the rounding. -/
theorem progress_truncation_counterexample :
    progressValues (captureThreadRun stOneCam hwOk enhId motorDefault true 3 (1 / 2))
      = [33, 66, 100] ∧
    ((66 : ℤ) ≠ round ((100 * ((1 : ℚ) + 1)) / 3)) ∧
    round ((100 * ((1 : ℚ) + 1)) / 3) = 67 := by
  refine ⟨by decide, by norm_num [round_eq], by norm_num [round_eq]⟩

/-- C4, amended: the progress value emitted after completing frame i
(0-based) is the truncation int(100 * (i + 1) / imageCount), i.e. the
floor, not round; and the concrete end-to-end part of the claim holds: an
imageCount 4 request on a two-camera rig makes exactly 8 capture calls,
issues exactly 4 rotation commands of 90 degrees each, and emits progress
values [25, 50, 75, 100] in order. -/
theorem progress_floor_formula_and_sequence (st : CamerasState)
    (hw : Nat → Except Unit (Option Image)) (enh : Nat → Image → Except Unit Image)
    (motor : MotorState) (oc : Bool) (n : ℤ) (d : ℚ) :
    progressValues (captureThreadRun st hw enh motor oc n d)
      = (List.range n.toNat).map (fun i => (100 * (i + 1)) / n.toNat) ∧
    ((captureThreadRun stTwoCam hwOk enhId motorDefault true 4 (1 / 2)).filter
      isCaptureCall).length = 8 ∧
    rotationCommands (captureThreadRun stTwoCam hwOk enhId motorDefault true 4 (1 / 2))
      = [90, 90, 90, 90] ∧
    progressValues (captureThreadRun stTwoCam hwOk enhId motorDefault true 4 (1 / 2))
      = [25, 50, 75, 100] := by
  refine ⟨?_, by decide, ?_, by decide⟩
  · unfold captureThreadRun
    simp only [progressValues, List.filterMap_cons]
    rw [show (List.filterMap (fun e => match e with
        | Event.progressEmit p => some p | _ => none) = progressValues) from rfl]
    rw [progressValues_append,
      progressValues_runFrames _ (fun i => (100 * (i + 1)) / n.toNat)
        (fun i => by
          rw [progressValues_append, progressValues_append, progressValues_append,
            progressValues_capture_enhanced]
          simp [progressValues, Motor.rotation])]
    simp [progressValues]
  · norm_num [captureThreadRun, runFrames, capture_enhanced, captureOneCamera,
      getCamerasArg, stTwoCam, hwOk, enhId, Motor.rotation, concatMap,
      rotationCommands, List.filterMap_cons, List.filterMap_nil]

/-- C10: the enhancement operations never write to the caller's input
buffer.  At buffer granularity both the controller pipeline and the GUI
pipeline either return the input object untouched (disabled paths) or
allocate a fresh working copy and write only that; in every case the
buffer the caller passed in still holds its original bytes afterwards, and
the returned buffer holds exactly the pure-function result. -/
theorem enhancement_works_on_copy (oc : Bool) (cv : CVOps)
    (settings : Option EnhancementSettings) (enabled : Bool) (power : ℚ → ℚ → ℚ)
    (l u gam con bri : ℚ) (h : Heap) (p : Nat) (hp : p < h.next) :
    readBuf (apply_image_enhancement_heap oc cv settings h p).1 p = readBuf h p ∧
    readBuf (apply_image_enhancement_heap oc cv settings h p).1
        (apply_image_enhancement_heap oc cv settings h p).2
      = apply_image_enhancement oc cv settings (readBuf h p) ∧
    readBuf (gui_apply_image_enhancement_heap enabled power l u gam con bri h p).1 p
      = readBuf h p ∧
    readBuf (gui_apply_image_enhancement_heap enabled power l u gam con bri h p).1
        (gui_apply_image_enhancement_heap enabled power l u gam con bri h p).2
      = gui_apply_image_enhancement enabled power l u gam con bri (readBuf h p) := by
  have hne : p ≠ h.next := Nat.ne_of_lt hp
  refine ⟨?_, ?_, ?_, ?_⟩
  · cases oc with
    | false => rfl
    | true =>
      cases settings with
      | none => rfl
      | some s =>
        by_cases hs : s.enabled
        · simp only [apply_image_enhancement_heap, hs, Bool.not_true, Bool.false_eq_true,
            if_false, if_true, allocBuf, writeBuf, readBuf]
          rw [Function.update_noteq hne, Function.update_noteq hne]
        · simp [apply_image_enhancement_heap, hs]
  · cases oc with
    | false => simp [apply_image_enhancement_heap, apply_image_enhancement]
    | true =>
      cases settings with
      | none => simp [apply_image_enhancement_heap, apply_image_enhancement]
      | some s =>
        by_cases hs : s.enabled
        · simp only [apply_image_enhancement_heap, apply_image_enhancement, hs,
            Bool.not_true, Bool.false_eq_true, if_false, if_true, allocBuf, writeBuf,
            readBuf]
          rw [Function.update_same, Function.update_same]
        · simp [apply_image_enhancement_heap, apply_image_enhancement, hs]
  · cases enabled with
    | false => rfl
    | true =>
      simp only [gui_apply_image_enhancement_heap, Bool.not_true, Bool.false_eq_true,
        if_false, allocBuf, writeBuf, readBuf]
      rw [Function.update_noteq hne, Function.update_noteq hne]
  · cases enabled with
    | false => simp [gui_apply_image_enhancement_heap, gui_apply_image_enhancement]
    | true =>
      simp only [gui_apply_image_enhancement_heap, Bool.not_true, Bool.false_eq_true,
        if_false, allocBuf, writeBuf, readBuf]
      rw [Function.update_same, Function.update_same]

/-- C10 witness on a one-buffer heap with the enabled levels settings. -/
theorem enhancement_works_on_copy_witness :
    (0 < heapOneBuf.next) ∧
    readBuf (apply_image_enhancement_heap true cvTrivial (some settingsLevels50to200)
        heapOneBuf 0).1 0 = readBuf heapOneBuf 0 ∧
    readBuf (gui_apply_image_enhancement_heap true (fun a _ => a) 0 255 1 1 0
        heapOneBuf 0).1 0 = readBuf heapOneBuf 0 :=
  ⟨by decide,
   (enhancement_works_on_copy true cvTrivial (some settingsLevels50to200) true
      (fun a _ => a) 0 255 1 1 0 heapOneBuf 0 (by decide)).1,
   (enhancement_works_on_copy true cvTrivial (some settingsLevels50to200) true
      (fun a _ => a) 0 255 1 1 0 heapOneBuf 0 (by decide)).2.2.1⟩
